import Mathlib

/-!
Shallow embedding of the 4tik license-authority code.

Conventions used throughout:
* Timestamps are integer milliseconds since the Unix epoch; an ISO-8601
  string in the JavaScript is modelled by its millisecond value, and a
  missing (undefined or null) field by none.
* JavaScript truthiness: a missing string field and the empty string are
  falsy; a missing number and 0 are falsy.
* Date arithmetic with setDate is modelled as uniform 86400000 ms days,
  and Math.ceil of a float quotient as the exact integer ceiling.
* The remote JSONBin store is modelled by the parsed list of license
  records the handlers operate on once the fetch has succeeded; transport
  failures and the surrounding JSON shape probing are outside the model.
* String.prototype.trim and toUpperCase are modelled on ASCII.
-/

namespace FourTik

/-- Milliseconds per day, as in the literal 1000 * 60 * 60 * 24. -/
def msPerDay : Int := 86400000

/-- Math.ceil of the exact rational quotient a / b, for b > 0. -/
def ceilDiv (a b : Int) : Int := -(Int.ediv (-a) b)

/-- hasPre p s : p is an initial segment of s (character lists). -/
def hasPre : List Char → List Char → Bool
  | [], _ => true
  | _ :: _, [] => false
  | a :: p, b :: s => a == b && hasPre p s

/-- subStr pat s : pat occurs as a contiguous run inside s. -/
def subStr (pat : List Char) : List Char → Bool
  | [] => pat.isEmpty
  | c :: t => hasPre pat (c :: t) || subStr pat t

/-- Substring test, modelling String.prototype.includes and the
alternation-of-literals regex tests in the source. -/
def strContains (s pat : String) : Bool := subStr pat.data s.data

/-- JavaScript truthiness of an optional string field. -/
def truthyStr : Option String → Bool
  | some s => s != ""
  | none => false

/-- a || b on an optional string field (the empty string is falsy). -/
def strOr : Option String → String → String
  | some s, b => if s == "" then b else s
  | none, b => b

/-- a || b on an optional counter field (0 is falsy). -/
def natOr : Option Nat → Nat → Nat
  | some n, b => if n == 0 then b else n
  | none, b => b

/-- Whitespace characters removed by String.prototype.trim (ASCII part). -/
def isWs (c : Char) : Bool := c == ' ' || c == '\t' || c == '\n' || c == '\r'

def trimChars (l : List Char) : List Char :=
  ((l.dropWhile isWs).reverse.dropWhile isWs).reverse

/-- The key normalizer of both handlers:
const normalize = k => k ? k.trim().toUpperCase() : ''. -/
def normalize : Option String → String
  | some s => if s == "" then "" else ⟨(trimChars s.data).map Char.toUpper⟩
  | none => ""

/-- new Date(e) < now : false when e is missing, because
new Date(undefined) is Invalid Date and NaN comparisons are false.
Also the body of the truthiness-guarded expiry check in validate. -/
def expiryFails (e : Option Int) (now : Int) : Bool :=
  match e with
  | some t => decide (t < now)
  | none => false

/-- A license record as stored in the JSONBin collection.  Stored records
can carry both historical spellings of the usage counter and of the
device label; the check-session response reads both. -/
structure License where
  key : Option String := none
  plan : Option String := none
  activated_on : Option Int := none
  device_hash : Option String := none
  device_name : Option String := none
  expires_at : Option Int := none
  duration_days : Option Nat := none
  processed_videos : Option Nat := none
  processedVideos : Option Nat := none
  deviceName : Option String := none
deriving Repr, DecidableEq

/-- The sanitized license object of a successful validate response. -/
structure LicenseView where
  key : Option String
  plan : String
  expiresAt : Option Int
  activatedAt : Option Int
  processed_videos : Nat
  device_name : String
deriving Repr, DecidableEq

/-- The license object of a successful check-session response.
remainingDays is none when expires_at is missing (NaN in the source). -/
structure CheckView where
  key : Option String
  plan : String
  expiresAt : Option Int
  remainingDays : Option Int
  processed_videos : Nat
  device_name : String
  activated_on : Option Int
deriving Repr, DecidableEq

/-- A handler response: valid:false with an error code, or valid:true with
a license view.  Localized message strings are not tracked. -/
inductive SResult (V : Type) where
  | invalid (error : String)
  | ok (view : V)
deriving Repr, DecidableEq

/-- Outcome of one server request: the response, the persisted collection
after the request, and whether a PUT was issued. -/
structure ServerOutcome (V : Type) where
  result : SResult V
  store : List License
  wrote : Bool
deriving Repr, DecidableEq

namespace Server

/-- Coarse user-agent classification (simplifyUserAgent). -/
def simplifyUserAgent (ua : String) : String :=
  if strContains ua "iPhone" || strContains ua "iPad" || strContains ua "iPod" then
    "Apple Device"
  else if strContains ua "Android" then "Android Device"
  else if strContains ua "Windows" then "Windows PC"
  else if strContains ua "Mac" then "Mac Computer"
  else "Unknown Device"

/-- license.device_hash && license.device_hash !== deviceId
(the device lock of the validate handler). -/
def deviceLockFails (h : Option String) (deviceId : String) : Bool :=
  match h with
  | some s => s != "" && s != deviceId
  | none => false

/-- license.device_hash !== deviceId (check-session; no truthiness guard,
so a record with no device_hash mismatches every device id). -/
def strictMismatch (h : Option String) (deviceId : String) : Bool :=
  match h with
  | some s => s != deviceId
  | none => true

/-- The first-activation block of the validate handler. -/
def activate (l : License) (deviceId ua : String) (now : Int) : License :=
  let l' := { l with activated_on := some now
                   , device_hash := some deviceId
                   , device_name := some (simplifyUserAgent ua)
                   , processed_videos := some 0 }
  if l'.duration_days.getD 0 != 0 then
    { l' with expires_at := some (now + (l'.duration_days.getD 0 : Int) * msPerDay) }
  else l'

/-- findIndex over the collection with normalized keys. -/
def lookupIdx (licenses : List License) (licenseKey : String) : Option Nat :=
  licenses.findIdx? fun l => normalize l.key == normalize (some licenseKey)

/-- The sanitized view built by the validate success response. -/
def licenseView (l : License) : LicenseView :=
  { key := l.key
  , plan := strOr l.plan "Premium"
  , expiresAt := l.expires_at
  , activatedAt := l.activated_on
  , processed_videos := natOr l.processed_videos 0
  , device_name := strOr l.device_name "Device not specified" }

/-- Tail of the validate handler once the record has been found.  On the
two failure paths no PUT is issued, so the persisted collection is the
input collection (the in-memory activation mutation is never persisted). -/
def validateFound (licenses : List License) (i : Nat) (license : License)
    (deviceId ua : String) (now : Int) : ServerOutcome LicenseView :=
  let license := if license.activated_on.isSome then license
                 else activate license deviceId ua now
  if deviceLockFails license.device_hash deviceId then
    ⟨.invalid "deviceMismatch", licenses, false⟩
  else if expiryFails license.expires_at now then
    ⟨.invalid "expired", licenses, false⟩
  else
    let license := { license with
                     processed_videos := some (natOr license.processed_videos 0 + 1) }
    ⟨.ok (licenseView license), licenses.set i license, true⟩

/-- src/api/validate-license.js, first handler (POST /api/validate-license),
from the point where the collection has been fetched. -/
def validate (licenses : List License) (licenseKey deviceId ua : String) (now : Int) :
    ServerOutcome LicenseView :=
  if licenseKey = "" ∨ deviceId = "" then
    ⟨.invalid "Missing license key or device ID", licenses, false⟩
  else
    match lookupIdx licenses licenseKey with
    | none => ⟨.invalid "invalidLicense", licenses, false⟩
    | some i =>
      match licenses.get? i with
      | none => ⟨.invalid "invalidLicense", licenses, false⟩
      | some license => validateFound licenses i license deviceId ua now

/-- The license object of the check-session success response. -/
def checkView (l : License) (now : Int) : CheckView :=
  { key := l.key
  , plan := strOr l.plan "Premium"
  , expiresAt := l.expires_at
  , remainingDays := l.expires_at.map fun t => ceilDiv (t - now) msPerDay
  , processed_videos := natOr l.processed_videos (natOr l.processedVideos 0)
  , device_name := strOr l.device_name (strOr l.deviceName "Device not specified")
  , activated_on := l.activated_on }

/-- Response of the check-session handler (second handler in
src/api/validate-license.js), after the fetch. -/
def checkSessionResult (licenses : List License) (licenseKey deviceId : String)
    (now : Int) : SResult CheckView :=
  if licenseKey = "" ∨ deviceId = "" then
    .invalid "Missing license key or device ID"
  else
    match lookupIdx licenses licenseKey with
    | none => .invalid "deleted"
    | some i =>
      match licenses.get? i with
      | none => .invalid "deleted"
      | some license =>
        if strictMismatch license.device_hash deviceId then .invalid "deviceMismatch"
        else if expiryFails license.expires_at now then .invalid "expired"
        else .ok (checkView license now)

/-- The check-session handler performs no PUT, so the persisted collection
after the request is the input collection. -/
def checkSession (licenses : List License) (licenseKey deviceId : String)
    (now : Int) : ServerOutcome CheckView :=
  ⟨checkSessionResult licenses licenseKey deviceId now, licenses, false⟩

end Server

/-- A license snapshot as handled by the client session cache: both
historical spellings of the usage counter and of the device label are
separate fields. -/
structure ClientLicense where
  key : Option String := none
  plan : Option String := none
  expiresAt : Option Int := none
  activatedAt : Option Int := none
  processed_videos : Option Nat := none
  processedVideos : Option Nat := none
  device_name : Option String := none
  deviceName : Option String := none
deriving Repr, DecidableEq

/-- The client session object. -/
structure Session where
  license : ClientLicense
  deviceId : Option String
  createdAt : Int
  expiresAt : Int
deriving Repr, DecidableEq

/-- The three independently keyed localStorage entries. -/
structure ClientStorage where
  session : Option Session := none
  deviceId : Option String := none
  licenseKey : Option String := none
deriving Repr, DecidableEq

def emptyStorage : ClientStorage := {}

namespace Client

/-- CONFIG.APP.SESSION_DURATION = 24 * 60 * 60 * 1000. -/
def sessionDuration : Int := 86400000

/-- The field-spelling normalization block that appears in both
API.createSession and the local API.checkSession: it populates a missing
spelling of the usage counter from the present one, and touches nothing
else (in particular not the device label spellings). -/
def normalizeCounters (d : ClientLicense) : ClientLicense :=
  if d.processed_videos.isSome && !d.processedVideos.isSome then
    { d with processedVideos := d.processed_videos }
  else if d.processedVideos.isSome && !d.processed_videos.isSome then
    { d with processed_videos := d.processedVideos }
  else d

/-- API.createSession: returns the session object and the updated
localStorage state. -/
def createSession (st : ClientStorage) (licenseData : ClientLicense)
    (deviceId : Option String) (now : Int) : Session × ClientStorage :=
  let st := if truthyStr deviceId then { st with deviceId := deviceId } else st
  let ld := normalizeCounters licenseData
  let session : Session :=
    { license := ld
    , deviceId := if truthyStr deviceId then deviceId else st.deviceId
    , createdAt := now
    , expiresAt := now + sessionDuration }
  (session, { st with session := some session, licenseKey := ld.key })

/-- API.destroySession: removes the three entries. -/
def destroySession (_st : ClientStorage) : ClientStorage := {}

/-- API.checkSession: the local cache read.  Returns the result and the
localStorage state afterwards (cleared on structural corruption). -/
def checkSession (st : ClientStorage) (now : Int) : SResult Session × ClientStorage :=
  match st.session with
  | none => (.invalid "no_session", st)
  | some sessionData =>
    if !sessionData.license.expiresAt.isSome then
      (.invalid "invalid_session_structure", destroySession st)
    else if sessionData.expiresAt < now then
      (.invalid "session_expired", st)
    else if expiryFails sessionData.license.expiresAt now then
      (.invalid "subscription_expired", st)
    else
      (.ok { sessionData with license := normalizeCounters sessionData.license }, st)

/-- API.getRemainingDays.  The source computes
Math.ceil((expiry - now) / dayMs) and clamps at 0. -/
def getRemainingDays (expiresAt now : Int) : Int :=
  if ceilDiv (expiresAt - now) msPerDay > 0 then ceilDiv (expiresAt - now) msPerDay
  else 0

end Client

namespace AuthManager

/-- AuthManager.validateLicenseFormat: return key && key.length > 0. -/
def validateLicenseFormat (key : String) : Bool := key != ""

/-- The license object of a successful validate response, as the client
receives it (only the snake_case spellings are present). -/
def viewToClient (v : LicenseView) : ClientLicense :=
  { key := v.key
  , plan := some v.plan
  , expiresAt := v.expiresAt
  , activatedAt := v.activatedAt
  , processed_videos := some v.processed_videos
  , device_name := some v.device_name }

inductive LoginOutcome where
  | failure (error : String)
  | success (session : Session)
deriving Repr, DecidableEq

/-- AuthManager.login.  The outcome of the remote api.validateLicense round
trip is passed in as validation; the final Bool records whether that
network call was reached.  On remote failure the surfaced message is
modelled by its fallback text. -/
def login (st : ClientStorage) (licenseKey deviceId : String)
    (validation : SResult LicenseView) (now : Int) :
    LoginOutcome × ClientStorage × Bool :=
  if !validateLicenseFormat licenseKey then
    (.failure "Invalid license key format", st, false)
  else
    match validation with
    | .invalid _e => (.failure "Invalid license", st, true)
    | .ok v =>
      let p := Client.createSession st (viewToClient v) (some deviceId) now
      (.success { p.1 with deviceId := some deviceId }, p.2, true)

end AuthManager

/-- A request path for a protected engine asset. -/
def protectedAsset (path : String) : Bool :=
  strContains path "ffmpeg-core.wasm" || strContains path "ffmpeg-core.worker.js"

inductive GateOutcome where
  | blocked
  | passed
deriving Repr, DecidableEq

/-- src/middleware.js (Vercel middleware).  For protected assets it
inspects the cookie header, but its 403 return statement is commented out
in the source, so every request falls through to fetch(request). -/
def middleware (path cookieHeader : String) : GateOutcome :=
  if protectedAsset path then
    let _hasToken := strContains cookieHeader "flowtik_token="
    .passed
  else .passed

/-- The Netlify edge handler (src/unnamed/part_003): 403 for a protected
asset without a truthy flowtik_token cookie. -/
def edgeGate (path : String) (token : Option String) : GateOutcome :=
  if protectedAsset path then
    if !truthyStr token then .blocked else .passed
  else .passed

/-- The express /lib middleware (src/unnamed/part_001): 403 for a
protected asset without a flowtik_token cookie. -/
def libGate (path : String) (token : Option String) : GateOutcome :=
  if protectedAsset path then
    if !truthyStr token then .blocked else .passed
  else .passed

/-- Record with device_hash set but activated_on unset (provisioned
out-of-band): validate re-activates it. -/
def hashOnlyLic : License := { key := some "K", device_hash := some "dev1" }

/-- Unactivated, device-bound, already expired, with duration_days. -/
def expiredDurLic : License :=
  { key := some "K", device_hash := some "dev1", expires_at := some (-1)
  , duration_days := some 30 }

/-- Unactivated, device-bound, already expired, without duration_days. -/
def expiredLic : License :=
  { key := some "K", device_hash := some "dev1", expires_at := some (-1) }

/-- Activated record bound to dev1, no expiry. -/
def actLic : License :=
  { key := some "K", activated_on := some 0, device_hash := some "dev1" }

/-- Activated record bound to dev1, expired at t = 5. -/
def actExpLic : License :=
  { key := some "K", activated_on := some 0, device_hash := some "dev1"
  , expires_at := some 5 }

/-- Fully unactivated record. -/
def unactLic : License := { key := some "K" }

/-- Scenario A record: unactivated, key ABC-1, duration_days 30. -/
def licC6 : License := { key := some "ABC-1", duration_days := some 30 }

/-- Client snapshot carrying only the snake_case device label spelling. -/
def snakeLabelLic : ClientLicense :=
  { device_name := some "Windows PC", expiresAt := some 100 }

/-- Client snapshot carrying only the snake_case usage counter spelling. -/
def pvLic : ClientLicense :=
  { expiresAt := some 100, processed_videos := some 3 }

/-! ### General lemmas -/

theorem get?_lt_length {α : Type} :
    ∀ (l : List α) (i : Nat) (a : α), l.get? i = some a → i < l.length
  | _ :: _, 0, _, _ => Nat.succ_pos _
  | _ :: t, i + 1, a, h => Nat.succ_lt_succ (get?_lt_length t i a h)
  | [], i, _, h => by simp [List.get?] at h

theorem get?_set_self {α : Type} :
    ∀ (l : List α) (i : Nat) (a : α), i < l.length → (l.set i a).get? i = some a
  | _ :: _, 0, _, _ => rfl
  | _ :: t, i + 1, a, h => get?_set_self t i a (Nat.lt_of_succ_lt_succ h)
  | [], i, _, h => absurd h (Nat.not_lt_zero i)

theorem strOr_some_of_ne {s : String} (h : s ≠ "") (b : String) :
    strOr (some s) b = s := by
  simp [strOr, h]

theorem simplifyUserAgent_ne (ua : String) : Server.simplifyUserAgent ua ≠ "" := by
  unfold Server.simplifyUserAgent
  split_ifs <;> decide

/-! ### Unfolding lemmas for the two server handlers -/

theorem validate_eq_found {licenses : List License} {licenseKey : String}
    {i : Nat} {l : License} (deviceId ua : String) (now : Int)
    (hk : licenseKey ≠ "") (hd : deviceId ≠ "")
    (hidx : Server.lookupIdx licenses licenseKey = some i)
    (hget : licenses.get? i = some l) :
    Server.validate licenses licenseKey deviceId ua now =
      Server.validateFound licenses i l deviceId ua now := by
  unfold Server.validate
  rw [if_neg (fun h => h.elim hk hd)]
  simp only [hidx, hget]

theorem validate_notFound {licenses : List License} {licenseKey : String}
    (deviceId ua : String) (now : Int)
    (hk : licenseKey ≠ "") (hd : deviceId ≠ "")
    (hidx : Server.lookupIdx licenses licenseKey = none) :
    Server.validate licenses licenseKey deviceId ua now =
      ⟨.invalid "invalidLicense", licenses, false⟩ := by
  unfold Server.validate
  rw [if_neg (fun h => h.elim hk hd)]
  simp only [hidx]

theorem check_eq_found {licenses : List License} {licenseKey : String}
    {i : Nat} {l : License} (deviceId : String) (now : Int)
    (hk : licenseKey ≠ "") (hd : deviceId ≠ "")
    (hidx : Server.lookupIdx licenses licenseKey = some i)
    (hget : licenses.get? i = some l) :
    Server.checkSessionResult licenses licenseKey deviceId now =
      (if Server.strictMismatch l.device_hash deviceId then
        SResult.invalid "deviceMismatch"
      else if expiryFails l.expires_at now then SResult.invalid "expired"
      else SResult.ok (Server.checkView l now)) := by
  unfold Server.checkSessionResult
  rw [if_neg (fun h => h.elim hk hd)]
  simp only [hidx, hget]

theorem check_notFound {licenses : List License} {licenseKey : String}
    (deviceId : String) (now : Int)
    (hk : licenseKey ≠ "") (hd : deviceId ≠ "")
    (hidx : Server.lookupIdx licenses licenseKey = none) :
    Server.checkSessionResult licenses licenseKey deviceId now =
      .invalid "deleted" := by
  unfold Server.checkSessionResult
  rw [if_neg (fun h => h.elim hk hd)]
  simp only [hidx]

/-! ### validateFound on an activated record -/

theorem validateFound_act_mismatch {l : License} {dh deviceId : String}
    (hact : l.activated_on.isSome = true) (hhash : l.device_hash = some dh)
    (hne : dh ≠ "") (hnd : dh ≠ deviceId)
    (licenses : List License) (i : Nat) (ua : String) (now : Int) :
    Server.validateFound licenses i l deviceId ua now =
      ⟨.invalid "deviceMismatch", licenses, false⟩ := by
  have hlock : Server.deviceLockFails l.device_hash deviceId = true := by
    rw [hhash]; simp [Server.deviceLockFails, hne, hnd]
  unfold Server.validateFound
  simp only [hact, if_true, hlock]

theorem validateFound_act_expired {l : License} {deviceId : String} {t now : Int}
    (hact : l.activated_on.isSome = true)
    (hlock : Server.deviceLockFails l.device_hash deviceId = false)
    (hexp : l.expires_at = some t) (ht : t < now)
    (licenses : List License) (i : Nat) (ua : String) :
    Server.validateFound licenses i l deviceId ua now =
      ⟨.invalid "expired", licenses, false⟩ := by
  have hfail : expiryFails l.expires_at now = true := by
    rw [hexp]; simp [expiryFails, ht]
  unfold Server.validateFound
  simp only [hact, if_true, hlock, hfail]
  simp

theorem validateFound_preserves_hash {licenses : List License} {i : Nat}
    {l : License} (hget : licenses.get? i = some l)
    (hact : l.activated_on.isSome = true)
    (deviceId ua : String) (now : Int) :
    ((Server.validateFound licenses i l deviceId ua now).store.get? i).map
        License.device_hash = some l.device_hash := by
  unfold Server.validateFound
  simp only [hact, if_true]
  by_cases h1 : Server.deviceLockFails l.device_hash deviceId
  · simp only [h1, if_true]
    simp only [Option.map_eq_some']
    exact ⟨l, hget, rfl⟩
  · by_cases h2 : expiryFails l.expires_at now
    · simp only [h1, h2, Bool.false_eq_true, if_false, if_true]
      simp only [Option.map_eq_some']
      exact ⟨l, hget, rfl⟩
    · simp only [h1, h2, if_false, Bool.false_eq_true, if_neg]
      rw [get?_set_self _ _ _ (get?_lt_length _ _ _ hget)]
      rfl

theorem validate_found_none {licenses : List License} {licenseKey : String}
    {i : Nat} (deviceId ua : String) (now : Int)
    (hk : licenseKey ≠ "") (hd : deviceId ≠ "")
    (hidx : Server.lookupIdx licenses licenseKey = some i)
    (hget : licenses.get? i = none) :
    Server.validate licenses licenseKey deviceId ua now =
      ⟨.invalid "invalidLicense", licenses, false⟩ := by
  unfold Server.validate
  rw [if_neg (fun h => h.elim hk hd)]
  simp only [hidx, hget]

theorem check_found_none {licenses : List License} {licenseKey : String}
    {i : Nat} (deviceId : String) (now : Int)
    (hk : licenseKey ≠ "") (hd : deviceId ≠ "")
    (hidx : Server.lookupIdx licenses licenseKey = some i)
    (hget : licenses.get? i = none) :
    Server.checkSessionResult licenses licenseKey deviceId now =
      .invalid "deleted" := by
  unfold Server.checkSessionResult
  rw [if_neg (fun h => h.elim hk hd)]
  simp only [hidx, hget]

/-! ### Claim theorems -/

/-- Claim C1, counterexample: a stored record can carry a device_hash while
activated_on is unset; on such a record validate with a different deviceId
does not return DeviceMismatch — it re-activates the record, overwriting
device_hash with the new deviceId and persisting it. -/
theorem c1_counterexample :
    hashOnlyLic.device_hash = some "dev1" ∧
    (Server.validate [hashOnlyLic] "K" "dev2" "ua" 0).result ≠
      SResult.invalid "deviceMismatch" ∧
    ((Server.validate [hashOnlyLic] "K" "dev2" "ua" 0).store.get? 0).map
        License.device_hash = some (some "dev2") := by
  decide

/-- Claim C1 (amended): for a record whose device_hash is set AND whose
activated_on is set, validate and checkSession with any different deviceId
return DeviceMismatch and leave the persisted collection unchanged, and
validate never changes the device_hash of such an activated record under
any arguments. -/
theorem c1_device_lock (licenses : List License) (licenseKey deviceId ua : String)
    (now : Int) (i : Nat) (l : License) (dh : String)
    (hk : licenseKey ≠ "") (hd : deviceId ≠ "")
    (hidx : Server.lookupIdx licenses licenseKey = some i)
    (hget : licenses.get? i = some l)
    (hact : l.activated_on.isSome = true)
    (hhash : l.device_hash = some dh) (hne : dh ≠ "") (hnd : dh ≠ deviceId) :
    Server.validate licenses licenseKey deviceId ua now =
      ⟨.invalid "deviceMismatch", licenses, false⟩ ∧
    (Server.checkSession licenses licenseKey deviceId now).result =
      .invalid "deviceMismatch" ∧
    (∀ (d' ua' : String) (now' : Int),
      ((Server.validate licenses licenseKey d' ua' now').store.get? i).map
          License.device_hash = some l.device_hash) := by
  refine ⟨?_, ?_, ?_⟩
  · rw [validate_eq_found deviceId ua now hk hd hidx hget]
    exact validateFound_act_mismatch hact hhash hne hnd licenses i ua now
  · show Server.checkSessionResult licenses licenseKey deviceId now = _
    rw [check_eq_found deviceId now hk hd hidx hget]
    have hsm : Server.strictMismatch l.device_hash deviceId = true := by
      rw [hhash]; simp [Server.strictMismatch, hnd]
    rw [hsm]
    simp
  · intro d' ua' now'
    by_cases hd' : d' = ""
    · subst hd'
      unfold Server.validate
      rw [if_pos (Or.inr rfl)]
      show (licenses.get? i).map License.device_hash = some l.device_hash
      rw [hget]
      rfl
    · rw [validate_eq_found d' ua' now' hk hd' hidx hget]
      exact validateFound_preserves_hash hget hact d' ua' now'

theorem c1_witness :
    Server.validate [actLic] "K" "dev2" "ua" 0 =
      ⟨.invalid "deviceMismatch", [actLic], false⟩ ∧
    (Server.checkSession [actLic] "K" "dev2" 0).result =
      .invalid "deviceMismatch" := by
  have h := c1_device_lock [actLic] "K" "dev2" "ua" 0 0 actLic "dev1"
    (by decide) (by decide) (by decide) rfl rfl rfl (by decide) (by decide)
  exact ⟨h.1, h.2.1⟩

/-- Claim C2, counterexample: an unactivated record with device_hash equal
to the supplied deviceId, expires_at in the past and duration_days set is
re-activated by validate with a fresh future expiry: the call succeeds,
increments the counter and writes the collection back. -/
theorem c2_counterexample :
    expiredDurLic.expires_at = some (-1) ∧ ((-1 : Int) < 0) = True ∧
    expiredDurLic.device_hash = some "dev1" ∧
    (Server.validate [expiredDurLic] "K" "dev1" "ua" 0).result ≠
      SResult.invalid "expired" ∧
    (Server.validate [expiredDurLic] "K" "dev1" "ua" 0).wrote = true := by
  decide

/-- Claim C2 (amended): for an ACTIVATED record whose expires_at is set and
in the past and whose device_hash equals the supplied deviceId, validate
and checkSession return Expired, and validate neither increments
processed_videos nor writes the collection back: the persisted collection
is unchanged. -/
theorem c2_expired_frozen (licenses : List License) (licenseKey deviceId ua : String)
    (now t : Int) (i : Nat) (l : License)
    (hk : licenseKey ≠ "") (hd : deviceId ≠ "")
    (hidx : Server.lookupIdx licenses licenseKey = some i)
    (hget : licenses.get? i = some l)
    (hact : l.activated_on.isSome = true)
    (hhash : l.device_hash = some deviceId)
    (hexp : l.expires_at = some t) (ht : t < now) :
    Server.validate licenses licenseKey deviceId ua now =
      ⟨.invalid "expired", licenses, false⟩ ∧
    (Server.checkSession licenses licenseKey deviceId now).result =
      .invalid "expired" := by
  have hlock : Server.deviceLockFails l.device_hash deviceId = false := by
    rw [hhash]; simp [Server.deviceLockFails]
  constructor
  · rw [validate_eq_found deviceId ua now hk hd hidx hget]
    exact validateFound_act_expired hact hlock hexp ht licenses i ua
  · show Server.checkSessionResult licenses licenseKey deviceId now = _
    rw [check_eq_found deviceId now hk hd hidx hget]
    have hsm : Server.strictMismatch l.device_hash deviceId = false := by
      rw [hhash]; simp [Server.strictMismatch]
    have hef : expiryFails l.expires_at now = true := by
      rw [hexp]; simp [expiryFails, ht]
    rw [hsm, hef]
    simp

theorem c2_witness :
    Server.validate [actExpLic] "K" "dev1" "ua" 10 =
      ⟨.invalid "expired", [actExpLic], false⟩ ∧
    (Server.checkSession [actExpLic] "K" "dev1" 10).result =
      .invalid "expired" :=
  c2_expired_frozen [actExpLic] "K" "dev1" "ua" 10 5 0 actExpLic
    (by decide) (by decide) (by decide) rfl rfl rfl rfl (by decide)

/-- Claim C3 (confirmed): the check-session handler never writes the store
back, for an unactivated record with no bound device it fails with
deviceMismatch, and repeating the call from the store it leaves behind
gives the same outcome as from the original store (so processed_videos is
never changed by any number of calls). -/
theorem c3_checkSession_frame :
    (∀ (licenses : List License) (k d : String) (now : Int),
       (Server.checkSession licenses k d now).store = licenses ∧
       (Server.checkSession licenses k d now).wrote = false) ∧
    (∀ (licenses : List License) (k d : String) (now : Int) (i : Nat) (l : License),
       k ≠ "" → d ≠ "" →
       Server.lookupIdx licenses k = some i → licenses.get? i = some l →
       l.activated_on = none → l.device_hash = none →
       (Server.checkSession licenses k d now).result = .invalid "deviceMismatch") ∧
    (∀ (licenses : List License) (k d k' d' : String) (now now' : Int),
       Server.checkSession (Server.checkSession licenses k d now).store k' d' now' =
         Server.checkSession licenses k' d' now') := by
  refine ⟨fun licenses k d now => ⟨rfl, rfl⟩, ?_, fun _ _ _ _ _ _ _ => rfl⟩
  intro licenses k d now i l hk hd hidx hget _hact hhash
  show Server.checkSessionResult licenses k d now = _
  rw [check_eq_found d now hk hd hidx hget]
  have hsm : Server.strictMismatch l.device_hash d = true := by
    rw [hhash]; rfl
  rw [hsm]
  simp

theorem c3_witness :
    (Server.checkSession [unactLic] "K" "dev" 0).store = [unactLic] ∧
    (Server.checkSession [unactLic] "K" "dev" 0).result =
      .invalid "deviceMismatch" := by
  have h := c3_checkSession_frame
  exact ⟨(h.1 [unactLic] "K" "dev" 0).1,
    h.2.1 [unactLic] "K" "dev" 0 0 unactLic (by decide) (by decide)
      (by decide) rfl rfl rfl⟩

/-! ### Session-cache lemmas -/

theorem normalizeCounters_idem (d : ClientLicense) :
    Client.normalizeCounters (Client.normalizeCounters d) =
      Client.normalizeCounters d := by
  rcases d with ⟨k, p, e, a, pv, pV, dn, dN⟩
  rcases pv with _ | x <;> rcases pV with _ | y <;> rfl

theorem normalizeCounters_fields (d : ClientLicense) :
    (Client.normalizeCounters d).key = d.key ∧
    (Client.normalizeCounters d).plan = d.plan ∧
    (Client.normalizeCounters d).expiresAt = d.expiresAt ∧
    (Client.normalizeCounters d).activatedAt = d.activatedAt ∧
    (Client.normalizeCounters d).device_name = d.device_name ∧
    (Client.normalizeCounters d).deviceName = d.deviceName := by
  unfold Client.normalizeCounters
  split_ifs <;> exact ⟨rfl, rfl, rfl, rfl, rfl, rfl⟩

theorem normalizeCounters_counters (d : ClientLicense) :
    (d.processedVideos = none →
       (Client.normalizeCounters d).processed_videos = d.processed_videos ∧
       (Client.normalizeCounters d).processedVideos = d.processed_videos) ∧
    (d.processed_videos = none →
       (Client.normalizeCounters d).processed_videos = d.processedVideos ∧
       (Client.normalizeCounters d).processedVideos = d.processedVideos) ∧
    (d.processed_videos.isSome = true → d.processedVideos.isSome = true →
       (Client.normalizeCounters d).processed_videos = d.processed_videos ∧
       (Client.normalizeCounters d).processedVideos = d.processedVideos) := by
  rcases d with ⟨k, p, e, a, pv, pV, dn, dN⟩
  rcases pv with _ | x <;> rcases pV with _ | y <;>
    simp [Client.normalizeCounters]

/-- Claim C4, counterexample: a snapshot carrying only the snake_case
device label round-trips through create and read with the camelCase
spelling still absent — the cache does not cross-populate the device label
spellings. -/
theorem c4_counterexample :
    snakeLabelLic.device_name = some "Windows PC" ∧
    (Client.checkSession
        (Client.createSession emptyStorage snakeLabelLic (some "dev") 0).2 0).1 =
      .ok { license := snakeLabelLic, deviceId := some "dev"
          , createdAt := 0, expiresAt := 86400000 } ∧
    snakeLabelLic.deviceName = none := by
  decide

/-- Claim C4 (amended): create followed immediately by read succeeds and
returns the created session; its license equals the input except that a
missing spelling of the usage counter is populated from the present one;
the device-label spellings are stored exactly as given, not
cross-populated. -/
theorem c4_create_then_read (st st' : ClientStorage) (ld : ClientLicense)
    (dev : Option String) (now t : Int) (sess : Session)
    (hexp : ld.expiresAt = some t) (ht : now ≤ t)
    (hcr : Client.createSession st ld dev now = (sess, st')) :
    (Client.checkSession st' now).1 = .ok sess ∧
    sess.license.key = ld.key ∧
    sess.license.plan = ld.plan ∧
    sess.license.expiresAt = ld.expiresAt ∧
    sess.license.activatedAt = ld.activatedAt ∧
    sess.license.device_name = ld.device_name ∧
    sess.license.deviceName = ld.deviceName ∧
    (ld.processedVideos = none →
       sess.license.processed_videos = ld.processed_videos ∧
       sess.license.processedVideos = ld.processed_videos) ∧
    (ld.processed_videos = none →
       sess.license.processed_videos = ld.processedVideos ∧
       sess.license.processedVideos = ld.processedVideos) ∧
    (ld.processed_videos.isSome = true → ld.processedVideos.isSome = true →
       sess.license.processed_videos = ld.processed_videos ∧
       sess.license.processedVideos = ld.processedVideos) := by
  simp only [Client.createSession, Prod.mk.injEq] at hcr
  obtain ⟨hsess, hst⟩ := hcr
  subst hsess
  subst hst
  have h1 : (Client.normalizeCounters ld).expiresAt = some t :=
    ((normalizeCounters_fields ld).2.2.1).trans hexp
  have h2 : ¬(now + Client.sessionDuration < now) := by
    unfold Client.sessionDuration; omega
  have h3 : expiryFails (some t) now = false := by
    simp only [expiryFails, decide_eq_false_iff_not, not_lt]
    exact ht
  refine ⟨?_, (normalizeCounters_fields ld).1, (normalizeCounters_fields ld).2.1,
    (normalizeCounters_fields ld).2.2.1, (normalizeCounters_fields ld).2.2.2.1,
    (normalizeCounters_fields ld).2.2.2.2.1, (normalizeCounters_fields ld).2.2.2.2.2,
    (normalizeCounters_counters ld).1, (normalizeCounters_counters ld).2.1,
    (normalizeCounters_counters ld).2.2⟩
  simp only [Client.checkSession, h1, h2, h3, Option.isSome_some, Bool.not_true,
    Bool.false_eq_true, if_false, normalizeCounters_idem]

theorem c4_witness :
    (Client.checkSession
        (Client.createSession emptyStorage pvLic (some "dev") 0).2 0).1 =
      .ok (Client.createSession emptyStorage pvLic (some "dev") 0).1 ∧
    (Client.createSession emptyStorage pvLic (some "dev") 0).1.license.processedVideos =
      some 3 := by
  have h := c4_create_then_read emptyStorage
    (Client.createSession emptyStorage pvLic (some "dev") 0).2 pvLic (some "dev")
    0 100 (Client.createSession emptyStorage pvLic (some "dev") 0).1
    rfl (by norm_num) rfl
  obtain ⟨hread, _, _, _, _, _, _, hcnt, _, _⟩ := h
  exact ⟨hread, (hcnt rfl).2⟩

/-- Claim C5, counterexample: an unactivated record bound to dev1 and past
its expiry: validate with dev2 first overwrites the binding during
activation, so it returns Expired, not DeviceMismatch. -/
theorem c5_counterexample :
    expiredLic.device_hash = some "dev1" ∧
    expiredLic.expires_at = some (-1) ∧
    (Server.validate [expiredLic] "K" "dev2" "ua" 0).result =
      SResult.invalid "expired" ∧
    (Server.validate [expiredLic] "K" "dev2" "ua" 0).result ≠
      SResult.invalid "deviceMismatch" := by
  decide

/-- Claim C5 (amended): for an ACTIVATED record that is both bound to a
different device and past its expiry, both handlers return DeviceMismatch,
not Expired — the device guard is evaluated first. -/
theorem c5_guard_order (licenses : List License) (licenseKey deviceId ua : String)
    (now t : Int) (i : Nat) (l : License) (dh : String)
    (hk : licenseKey ≠ "") (hd : deviceId ≠ "")
    (hidx : Server.lookupIdx licenses licenseKey = some i)
    (hget : licenses.get? i = some l)
    (hact : l.activated_on.isSome = true)
    (hhash : l.device_hash = some dh) (hne : dh ≠ "") (hnd : dh ≠ deviceId)
    (_hexp : l.expires_at = some t) (_ht : t < now) :
    (Server.validate licenses licenseKey deviceId ua now).result =
      .invalid "deviceMismatch" ∧
    (Server.checkSession licenses licenseKey deviceId now).result =
      .invalid "deviceMismatch" := by
  constructor
  · rw [validate_eq_found deviceId ua now hk hd hidx hget,
      validateFound_act_mismatch hact hhash hne hnd licenses i ua now]
  · show Server.checkSessionResult licenses licenseKey deviceId now = _
    rw [check_eq_found deviceId now hk hd hidx hget]
    have hsm : Server.strictMismatch l.device_hash deviceId = true := by
      rw [hhash]; simp [Server.strictMismatch, hnd]
    rw [hsm]
    simp

theorem c5_witness :
    (Server.validate [actExpLic] "K" "dev2" "ua" 10).result =
      .invalid "deviceMismatch" ∧
    (Server.checkSession [actExpLic] "K" "dev2" 10).result =
      .invalid "deviceMismatch" :=
  c5_guard_order [actExpLic] "K" "dev2" "ua" 10 5 0 actExpLic "dev1"
    (by decide) (by decide) (by decide) rfl rfl rfl (by decide) (by decide)
    rfl (by decide)

/-- Claim C7, counterexample: a whitespace-only key is empty after
trimming, yet it passes the format check and login reaches the network
call. -/
theorem c7_counterexample :
    normalize (some "   ") = "" ∧
    AuthManager.validateLicenseFormat "   " = true ∧
    (AuthManager.login emptyStorage "   " "dev"
        (.invalid "invalidLicense") 0).2.2 = true := by
  decide

/-- Claim C7 (amended): the format check rejects exactly the empty-string
key — the empty key fails with a format error before any network call, and
every non-empty key (including whitespace-only keys) passes the format
check, reaching the network call. -/
theorem c7_format_check :
    (∀ k : String, AuthManager.validateLicenseFormat k = true ↔ k ≠ "") ∧
    (∀ (st : ClientStorage) (d : String) (v : SResult LicenseView) (now : Int),
       AuthManager.login st "" d v now =
         (.failure "Invalid license key format", st, false)) ∧
    (∀ (st : ClientStorage) (k d : String) (v : SResult LicenseView) (now : Int),
       k ≠ "" → (AuthManager.login st k d v now).2.2 = true) := by
  refine ⟨fun k => ?_, fun st d v now => rfl, fun st k d v now hk => ?_⟩
  · simp [AuthManager.validateLicenseFormat]
  · unfold AuthManager.login
    have hf : AuthManager.validateLicenseFormat k = true := by
      simp [AuthManager.validateLicenseFormat, hk]
    rw [hf]
    cases v <;> rfl

theorem c7_witness :
    AuthManager.validateLicenseFormat "   " = true ∧
    (AuthManager.login emptyStorage "A" "dev" (.invalid "x") 0).2.2 = true :=
  ⟨(c7_format_check.1 "   ").mpr (by decide),
   c7_format_check.2.2 emptyStorage "A" "dev" (.invalid "x") 0 (by decide)⟩

/-- Claim C8, counterexample: the Vercel middleware receives a request for
the protected wasm asset with no cookie at all and still passes it
through — its rejection is commented out in src/middleware.js. -/
theorem c8_counterexample :
    protectedAsset "/lib/ffmpeg-core.wasm" = true ∧
    strContains "" "flowtik_token=" = false ∧
    middleware "/lib/ffmpeg-core.wasm" "" = GateOutcome.passed := by
  decide

/-- Claim C8 (amended): the Netlify edge gate and the express /lib gate
reject every protected-asset request without a truthy flowtik_token
cookie; the Vercel middleware does not (see the counterexample). -/
theorem c8_gates_block (path : String) (token : Option String)
    (hp : protectedAsset path = true) (ht : truthyStr token = false) :
    edgeGate path token = GateOutcome.blocked ∧
    libGate path token = GateOutcome.blocked := by
  unfold edgeGate libGate
  rw [hp, ht]
  exact ⟨rfl, rfl⟩

theorem c8_witness :
    edgeGate "/lib/ffmpeg-core.wasm" none = GateOutcome.blocked ∧
    libGate "/lib/ffmpeg-core.wasm" none = GateOutcome.blocked :=
  c8_gates_block "/lib/ffmpeg-core.wasm" none (by decide) rfl

/-- Claim C9, counterexample: a license key missing from the store is
surfaced by the check-session handler as the code "deleted", which is not
in the documented error-code enum. -/
theorem c9_counterexample :
    (Server.checkSession [] "K" "dev" 0).result = .invalid "deleted" ∧
    "deleted" ∉ ["invalidLicense", "deviceMismatch", "expired", "network",
      "server_error", "invalid_session_structure", "no_session"] := by
  decide

/-- Claim C9 (amended): with both request fields present, every failure of
the validate handler carries a code in {invalidLicense, deviceMismatch,
expired} and every failure of the check-session handler a code in
{deleted, deviceMismatch, expired}; a key missing from the store is
surfaced as invalidLicense by validate but as "deleted" (outside the
documented enum) by checkSession. -/
theorem c9_error_codes (licenses : List License) (k d ua : String) (now : Int)
    (hk : k ≠ "") (hd : d ≠ "") :
    (∀ e, (Server.validate licenses k d ua now).result = .invalid e →
       e ∈ ["invalidLicense", "deviceMismatch", "expired"]) ∧
    (∀ e, (Server.checkSession licenses k d now).result = .invalid e →
       e ∈ ["deleted", "deviceMismatch", "expired"]) ∧
    (Server.lookupIdx licenses k = none →
       (Server.validate licenses k d ua now).result = .invalid "invalidLicense" ∧
       (Server.checkSession licenses k d now).result = .invalid "deleted") := by
  refine ⟨?_, ?_, ?_⟩
  · intro e he
    rcases hidx : Server.lookupIdx licenses k with _ | i
    · rw [validate_notFound d ua now hk hd hidx] at he
      simp only [SResult.invalid.injEq] at he
      subst he; decide
    · rcases hget : licenses.get? i with _ | l
      · rw [validate_found_none d ua now hk hd hidx hget] at he
        simp only [SResult.invalid.injEq] at he
        subst he; decide
      · rw [validate_eq_found d ua now hk hd hidx hget] at he
        simp only [Server.validateFound] at he
        split_ifs at he <;> simp at he <;> (subst he; decide)
  · intro e he
    rcases hidx : Server.lookupIdx licenses k with _ | i
    · rw [show (Server.checkSession licenses k d now).result =
          Server.checkSessionResult licenses k d now from rfl,
        check_notFound d now hk hd hidx] at he
      simp only [SResult.invalid.injEq] at he
      subst he; decide
    · rcases hget : licenses.get? i with _ | l
      · rw [show (Server.checkSession licenses k d now).result =
            Server.checkSessionResult licenses k d now from rfl,
          check_found_none d now hk hd hidx hget] at he
        simp only [SResult.invalid.injEq] at he
        subst he; decide
      · rw [show (Server.checkSession licenses k d now).result =
            Server.checkSessionResult licenses k d now from rfl,
          check_eq_found d now hk hd hidx hget] at he
        split_ifs at he <;> simp at he <;> (subst he; decide)
  · intro hidx
    refine ⟨?_, ?_⟩
    · rw [validate_notFound d ua now hk hd hidx]
    · show Server.checkSessionResult licenses k d now = _
      rw [check_notFound d now hk hd hidx]

theorem c9_witness :
    (Server.validate [] "K" "dev" "ua" 0).result = .invalid "invalidLicense" ∧
    (Server.checkSession [] "K" "dev" 0).result = .invalid "deleted" :=
  (c9_error_codes [] "K" "dev" "ua" 0 (by decide) (by decide)).2.2 rfl

/-- Claim C6 (confirmed): validate("abc-1", "dev1") on the unactivated
record with key "ABC-1" and duration_days 30 finds the record under the
trimmed-and-uppercased key and succeeds with activatedAt = now,
expiresAt = now + 30 days and processed_videos = 1, writing the
collection back. -/
theorem c6_scenario_a (now : Int) (ua : String) :
    (Server.validate [licC6] "abc-1" "dev1" ua now).result =
      .ok { key := some "ABC-1", plan := "Premium"
          , expiresAt := some (now + 30 * msPerDay), activatedAt := some now
          , processed_videos := 1
          , device_name := Server.simplifyUserAgent ua } ∧
    (Server.validate [licC6] "abc-1" "dev1" ua now).wrote = true := by
  have hidx : Server.lookupIdx [licC6] "abc-1" = some 0 := by decide
  have heq : Server.validate [licC6] "abc-1" "dev1" ua now =
      Server.validateFound [licC6] 0 licC6 "dev1" ua now :=
    validate_eq_found "dev1" ua now (by decide) (by decide) hidx rfl
  have hkey : (Server.activate licC6 "dev1" ua now).key = some "ABC-1" := rfl
  have hplan : (Server.activate licC6 "dev1" ua now).plan = none := rfl
  have hao : (Server.activate licC6 "dev1" ua now).activated_on = some now := rfl
  have hdh : (Server.activate licC6 "dev1" ua now).device_hash = some "dev1" := rfl
  have hdn : (Server.activate licC6 "dev1" ua now).device_name =
      some (Server.simplifyUserAgent ua) := rfl
  have hpv : (Server.activate licC6 "dev1" ua now).processed_videos = some 0 := rfl
  have hex : (Server.activate licC6 "dev1" ua now).expires_at =
      some (now + 30 * msPerDay) := by
    show some (now + ((30 : Nat) : Int) * msPerDay) = some (now + 30 * msPerDay)
    norm_num
  have hg : expiryFails (some (now + 30 * msPerDay)) now = false := by
    simp only [expiryFails, decide_eq_false_iff_not, not_lt, msPerDay]
    omega
  have hna : (licC6.activated_on.isSome = true) = False := by simp [licC6]
  rw [heq]
  simp only [Server.validateFound, hna, if_false]
  have hlock : Server.deviceLockFails
      (Server.activate licC6 "dev1" ua now).device_hash "dev1" = false := by
    rw [hdh]; decide
  have hexpf : expiryFails (Server.activate licC6 "dev1" ua now).expires_at now =
      false := by
    rw [hex]; exact hg
  simp only [hlock, hexpf, Bool.false_eq_true, if_false]
  constructor
  · simp only [Server.licenseView, hkey, hplan, hex, hao, hpv, hdn]
    simp [natOr, strOr, strOr_some_of_ne (simplifyUserAgent_ne ua)]
    exact fun h => absurd h (simplifyUserAgent_ne ua)
  · trivial

/-- Claim C10 (confirmed): the client getRemainingDays is the 0-clamped
ceiling of (expiresAt - now) in days — in particular it is never
negative. -/
theorem c10_remaining_days_clamped (expiresAt now : Int) :
    Client.getRemainingDays expiresAt now =
      max (ceilDiv (expiresAt - now) msPerDay) 0 ∧
    0 ≤ Client.getRemainingDays expiresAt now := by
  constructor
  · unfold Client.getRemainingDays
    rcases lt_or_le 0 (ceilDiv (expiresAt - now) msPerDay) with h | h
    · rw [if_pos h, max_eq_left h.le]
    · rw [if_neg (not_lt.mpr h), max_eq_right h]
  · unfold Client.getRemainingDays
    split_ifs with h
    · exact le_of_lt h
    · exact le_refl 0

end FourTik
